import Mathlib

/-!
Shallow embedding of the CircleSfera predictive-alerting pipeline
(alert store, batcher/correlator, pattern miner, accuracy tracker,
analytics derivation), with theorems settling the specification claims.

Timestamps are millisecond epoch integers (ℤ); all fractional arithmetic
from the source is carried out exactly over ℚ.
-/

namespace CircleSfera

/-- Alert severity, per the Alert interface in alertNotifier.ts. -/
inductive Severity where
  | warning
  | critical
deriving DecidableEq, Repr

/-- Alert record, per the exported Alert interface in alertNotifier.ts. -/
structure Alert where
  type : String
  value : ℚ
  threshold : ℚ
  timestamp : ℤ
  severity : Severity
  message : String
deriving DecidableEq, Repr

/-! ## Alert Store & Notifier (alertNotifier.ts) -/

/-- MAX_HISTORY cap from AlertNotifier. -/
def MAX_HISTORY : ℕ := 1000

/-- The entry pushed by notifyAlert: a copy of the alert with its
timestamp field replaced by the current time. -/
def stampAlert (a : Alert) (now : ℤ) : Alert :=
  { a with timestamp := now }

/-- History update performed by notifyAlert: push the stamped copy, then
trim to the last MAX_HISTORY entries when the cap is exceeded. -/
def notifyRecord (history : List Alert) (a : Alert) (now : ℤ) : List Alert :=
  let h := history ++ [stampAlert a now]
  if MAX_HISTORY < h.length then h.drop (h.length - MAX_HISTORY) else h

/-- Folding notifyRecord over a sequence of (alert, arrival time) pairs,
starting from the empty history. -/
def recordAll (pairs : List (Alert × ℤ)) : List Alert :=
  pairs.foldl (fun h p => notifyRecord h p.1 p.2) []

/-- Query options of getAlertHistory; fromFilter/toFilter are the
`from`/`to` Date bounds converted to ms. -/
structure HistoryQuery where
  typeFilter : Option String
  severityFilter : Option Severity
  fromFilter : Option ℤ
  toFilter : Option ℤ
deriving Repr

/-- getAlertHistory: sequential optional filters over the history. -/
def getAlertHistory (history : List Alert) (o : HistoryQuery) : List Alert :=
  let f1 := match o.typeFilter with
    | some t => history.filter (fun al => al.type = t)
    | none => history
  let f2 := match o.severityFilter with
    | some s => f1.filter (fun al => al.severity = s)
    | none => f1
  let f3 := match o.fromFilter with
    | some f => f2.filter (fun al => f ≤ al.timestamp)
    | none => f2
  match o.toFilter with
    | some t => f3.filter (fun al => al.timestamp ≤ t)
    | none => f3

/-! ## Batcher/Correlator (alertProcessor.ts) -/

/-- AlertCorrelation record from alertProcessor.ts. -/
structure AlertCorrelation where
  primaryAlert : Alert
  relatedAlerts : List Alert
  correlationType : String
  confidence : ℚ
deriving Repr

/-- determineCorrelationType: cause if every related alert is strictly
later, effect if every related alert is strictly earlier, else related. -/
def determineCorrelationType (primary : Alert) (related : List Alert) : String :=
  if related.all (fun r => primary.timestamp < r.timestamp) then "cause"
  else if related.all (fun r => r.timestamp < primary.timestamp) then "effect"
  else "related"

/-- calculateCorrelationConfidence: 0.4 × mean inverse time distance +
0.3 × same-type fraction + 0.3 × same-severity fraction, capped at 1. -/
def calculateCorrelationConfidence (primary : Alert) (related : List Alert) : ℚ :=
  let timeProximity : ℚ :=
    ((related.map (fun r => (1 : ℚ) / ((r.timestamp - primary.timestamp).natAbs : ℚ))).sum)
      / (related.length : ℚ)
  let c : ℚ := timeProximity * (4/10)
    + (((related.filter (fun r => r.type = primary.type)).length : ℚ) / (related.length : ℚ)) * (3/10)
    + (((related.filter (fun r => r.severity = primary.severity)).length : ℚ) / (related.length : ℚ)) * (3/10)
  min c 1

/-- The related-alert set of the alert at position i: all other batch
members within ±60000 ms of its timestamp (the source compares object
identity, embedded here as position inequality). -/
def relatedTo (alerts : List Alert) (i : ℕ) (a : Alert) : List Alert :=
  (alerts.enum.filter
    (fun p => p.1 ≠ i ∧ (p.2.timestamp - a.timestamp).natAbs ≤ 60000)).map Prod.snd

/-- findCorrelations over a batch: one correlation per alert whose
related-alert set is nonempty. -/
def findCorrelations (alerts : List Alert) : List AlertCorrelation :=
  alerts.enum.filterMap (fun p =>
    let related := relatedTo alerts p.1 p.2
    if related.length > 0 then
      some { primaryAlert := p.2
             relatedAlerts := related
             correlationType := determineCorrelationType p.2 related
             confidence := calculateCorrelationConfidence p.2 related }
    else none)

/-- Archived alert batch, per the AlertBatch interface in
alertProcessor.ts (`timestamp` is the batch creation time). -/
structure AlertBatch where
  id : String
  alerts : List Alert
  correlations : List AlertCorrelation
  timestamp : ℤ
  processed : Bool

/-! ## Pattern Miner (alertPatternAnalyzer) -/

/-- Nested `pattern` payload of an AlertPattern. -/
structure PatternCore where
  alertTypes : List String
  timeWindow : ℤ
  severity : Severity
  frequency : ℚ
deriving DecidableEq, Repr

/-- A pattern's prediction payload. -/
structure Prediction where
  nextExpected : ℚ
  confidence : ℚ
deriving DecidableEq, Repr

/-- AlertPattern registry entry from alertPatternAnalyzer. -/
structure AlertPattern where
  id : String
  pattern : PatternCore
  occurrences : ℕ
  lastSeen : ℤ
  prediction : Option Prediction
deriving DecidableEq, Repr

/-- The pattern registry: the Map values in insertion order, keyed by
the patterns' id fields. -/
abbrev Registry := List AlertPattern

/-- MIN_PATTERN_OCCURRENCES from alertPatternAnalyzer. -/
def MIN_PATTERN_OCCURRENCES : ℕ := 3

/-- First-occurrence deduplication, the order produced by
`[...new Set(xs)]` in JavaScript. -/
def dedupFirst {α : Type} [DecidableEq α] (l : List α) : List α :=
  l.foldl (fun acc s => if s ∈ acc then acc else acc ++ [s]) []

/-- Maximum of an integer list (the list is nonempty at every use site,
matching `Math.max(...)` there). -/
def listMaxI (l : List ℤ) : ℤ := l.foldl max (l.headD 0)

/-- Minimum of an integer list (nonempty at every use site). -/
def listMinI (l : List ℤ) : ℤ := l.foldl min (l.headD 0)

/-- Stable insertion into a timestamp-sorted list (new element goes
after existing equal timestamps). -/
def insertByTs (a : Alert) : List Alert → List Alert
  | [] => [a]
  | b :: l => if b.timestamp ≤ a.timestamp then b :: insertByTs a l else a :: b :: l

/-- Stable sort by ascending timestamp, the comparator
`(a, b) => a.timestamp - b.timestamp` of the source. -/
def sortByTimestamp (l : List Alert) : List Alert := l.foldr insertByTs []

/-- Clustering loop of groupAlertsByTimeWindow: extend the current group
while the next alert is within 5 minutes of the group's first alert,
emit groups of at least two alerts. -/
def groupLoop : List Alert → List Alert → List (List Alert)
  | [], cur => if 1 < cur.length then [cur] else []
  | a :: rest, cur =>
    match cur with
    | [] => groupLoop rest [a]
    | first :: _ =>
      if a.timestamp - first.timestamp ≤ 300000 then groupLoop rest (cur ++ [a])
      else (if 1 < cur.length then [cur] else []) ++ groupLoop rest [a]

/-- groupAlertsByTimeWindow: sort by timestamp, then cluster by a
5-minute gap from each cluster's first alert. -/
def groupAlertsByTimeWindow (alerts : List Alert) : List (List Alert) :=
  groupLoop (sortByTimestamp alerts) []

/-- calculateFrequency: cluster size divided by the cluster's time span
in hours. -/
def calculateFrequency (alerts : List Alert) : ℚ :=
  let ts := alerts.map (fun a => a.timestamp)
  let timeSpan := listMaxI ts - listMinI ts
  (alerts.length : ℚ) / ((timeSpan : ℚ) / 3600000)

/-- The candidate pattern id built by createPattern. -/
def minerPatternId (alertTypes : List String) (timeWindow : ℤ) : String :=
  "pattern-" ++ String.intercalate "-" alertTypes ++ "-" ++ toString timeWindow

/-- createPattern over a cluster: unique types, worst severity, time
window = max − min timestamp, occurrences 1, no prediction. -/
def createPattern (alerts : List Alert) : AlertPattern :=
  let alertTypes := dedupFirst (alerts.map (fun a => a.type))
  let severity := if alerts.any (fun a => a.severity = Severity.critical)
    then Severity.critical else Severity.warning
  let ts := alerts.map (fun a => a.timestamp)
  let timeWindow := listMaxI ts - listMinI ts
  { id := minerPatternId alertTypes timeWindow
    pattern := { alertTypes := alertTypes
                 timeWindow := timeWindow
                 severity := severity
                 frequency := calculateFrequency alerts }
    occurrences := 1
    lastSeen := listMaxI ts
    prediction := none }

/-- The prediction confidence formula of updatePattern:
min(0.5 + 0.1 × occurrences, 0.9). -/
def predConfidence (occurrences : ℕ) : ℚ :=
  min (1/2 + (occurrences : ℚ) * (1/10)) (9/10)

/-- The merge branch of updatePattern: occurrences incremented, lastSeen
overwritten, frequency updated as a running average, and the prediction
recomputed once occurrences reach MIN_PATTERN_OCCURRENCES, with
avgTimeBetween = (new lastSeen − previous nextExpected)/(occurrences−1)
when a previous prediction exists, else 0. -/
def mergePattern (existing np : AlertPattern) : AlertPattern :=
  let occ := existing.occurrences + 1
  let lastSeen := np.lastSeen
  let freq := (existing.pattern.frequency * ((occ : ℚ) - 1) + np.pattern.frequency) / (occ : ℚ)
  let base := { existing with
    occurrences := occ
    lastSeen := lastSeen
    pattern := { existing.pattern with frequency := freq } }
  if MIN_PATTERN_OCCURRENCES ≤ occ then
    let avgTimeBetween : ℚ := match existing.prediction with
      | some pr => ((lastSeen : ℚ) - pr.nextExpected) / ((occ : ℚ) - 1)
      | none => 0
    let newPrediction : Prediction :=
      { nextExpected := (lastSeen : ℚ) + avgTimeBetween
        confidence := predConfidence occ }
    { base with prediction := some newPrediction }
  else base

/-- updatePattern: merge into the existing entry with the same id, or
insert the new pattern. -/
def updatePattern (r : Registry) (np : AlertPattern) : Registry :=
  match r.find? (fun p => p.id = np.id) with
  | some _ => r.map (fun p => if p.id = np.id then mergePattern p np else p)
  | none => r ++ [np]

/-- cleanupPatterns: drop patterns inactive for over 30 days with fewer
than MIN_PATTERN_OCCURRENCES occurrences. -/
def cleanupPatterns (r : Registry) (now : ℤ) : Registry :=
  r.filter (fun p =>
    ¬(2592000000 < now - p.lastSeen ∧ p.occurrences < MIN_PATTERN_OCCURRENCES))

/-- detectPatterns over a list of archived batches: cluster each batch's
alerts, merge every cluster of at least two alerts into the registry,
then clean up stale patterns. -/
def detectPatterns (r : Registry) (batches : List AlertBatch) (now : ℤ) : Registry :=
  cleanupPatterns
    (batches.foldl (fun acc batch =>
      (groupAlertsByTimeWindow batch.alerts).foldl (fun acc2 group =>
        if 2 ≤ group.length then updatePattern acc2 (createPattern group) else acc2) acc) r)
    now

/-- One archive-analysis cycle: read every archived batch and run
detectPatterns over all of them (the source applies no filter on the
batches' processed flag). -/
def analyzeArchivedBatches (r : Registry) (archive : List AlertBatch) (now : ℤ) : Registry :=
  detectPatterns r archive now

/-! ## Accuracy Tracker (predictionAccuracy) -/

/-- PredictionAccuracyMetric record. -/
structure PredictionAccuracyMetric where
  patternId : String
  predictedTime : ℤ
  actualTime : Option ℤ
  confidence : ℚ
  accuracy : Option ℚ
  verified : Bool
deriving DecidableEq, Repr

/-- TIME_TOLERANCE: the ±30 minute verification window, in ms. -/
def TIME_TOLERANCE : ℤ := 1800000

/-- calculateAccuracy: 1 within five minutes, then linear decay to 0 at
the tolerance edge. -/
def calculateAccuracy (predicted actual : ℤ) : ℚ :=
  let timeDiff : ℤ := (predicted - actual).natAbs
  let fiveMinutes : ℤ := 300000
  if timeDiff ≤ fiveMinutes then 1
  else max 0 (1 - ((timeDiff : ℚ) - (fiveMinutes : ℚ)) / ((TIME_TOLERANCE : ℚ) - (fiveMinutes : ℚ)))

/-- Stable insertion into a list sorted by distance to the predicted
time. -/
def insertByDist (p : ℤ) (a : Alert) : List Alert → List Alert
  | [] => [a]
  | b :: l =>
    if (b.timestamp - p).natAbs ≤ (a.timestamp - p).natAbs then b :: insertByDist p a l
    else a :: b :: l

/-- Stable sort by ascending distance to the predicted time. -/
def sortByDist (p : ℤ) (l : List Alert) : List Alert := l.foldr (insertByDist p) []

/-- findRelevantAlert: the in-window candidate closest to the predicted
time, none when no candidate falls inside ±TIME_TOLERANCE. -/
def findRelevantAlert (predictedTime : ℤ) (alerts : List Alert) : Option Alert :=
  let inWindow := alerts.filter (fun a =>
    predictedTime - TIME_TOLERANCE ≤ a.timestamp ∧ a.timestamp ≤ predictedTime + TIME_TOLERANCE)
  (sortByDist predictedTime inWindow).head?

/-- The per-record update of verifyPrediction: an unverified record with
the requested pattern id is verified against the closest in-window
candidate, if any; every other record is left unchanged. -/
def verifyOne (patternId : String) (actualAlerts : List Alert)
    (m : PredictionAccuracyMetric) : PredictionAccuracyMetric :=
  if m.patternId = patternId ∧ m.verified = false then
    match findRelevantAlert m.predictedTime actualAlerts with
    | some r =>
      { m with actualTime := some r.timestamp
               accuracy := some (calculateAccuracy m.predictedTime r.timestamp)
               verified := true }
    | none => m
  else m

/-- verifyPrediction over the whole metric list. -/
def verifyPrediction (metrics : List PredictionAccuracyMetric) (patternId : String)
    (actualAlerts : List Alert) : List PredictionAccuracyMetric :=
  metrics.map (verifyOne patternId actualAlerts)

/-- The pattern id against which notifyAlert verifies predictions for a
non-synthetic alert: the literal prefix followed by the alert type. -/
def verificationId (alertType : String) : String :=
  "pattern-" ++ alertType

/-! ## Analytics Derivation (predictionAnalytics) -/

/-- A point of the hourly time series. -/
structure TimeSeriesPoint where
  timestamp : ℤ
  value : ℚ
deriving DecidableEq, Repr

/-- Seasonality flags of the decomposition. -/
structure Seasonality where
  daily : Bool
  weekly : Bool
  monthly : Bool
deriving DecidableEq, Repr

/-- calculateTrend: least-squares slope of value against index,
classified stable below an absolute slope of 0.1. -/
def calculateTrend (alerts : List Alert) : String :=
  if alerts.length < 2 then "stable"
  else
    let n : ℚ := (alerts.length : ℚ)
    let sumX : ℚ := (alerts.enum.map (fun p => (p.1 : ℚ))).sum
    let sumY : ℚ := (alerts.enum.map (fun p => p.2.value)).sum
    let sumXY : ℚ := (alerts.enum.map (fun p => (p.1 : ℚ) * p.2.value)).sum
    let sumX2 : ℚ := (alerts.enum.map (fun p => (p.1 : ℚ) * (p.1 : ℚ))).sum
    let slope := (n * sumXY - sumX * sumY) / (n * sumX2 - sumX * sumX)
    if |slope| < 1/10 then "stable"
    else if 0 < slope then "increasing" else "decreasing"

/-- The hourly bucket key of a timestamp:
Math.floor(ts / 3600000) * 3600000. -/
def hourBucket (ts : ℤ) : ℤ := Int.fdiv ts 3600000 * 3600000

/-- Stable insertion into a timestamp-sorted point list. -/
def insertPointByTs (a : TimeSeriesPoint) : List TimeSeriesPoint → List TimeSeriesPoint
  | [] => [a]
  | b :: l => if b.timestamp ≤ a.timestamp then b :: insertPointByTs a l else a :: b :: l

/-- Sort a point list by ascending timestamp. -/
def sortPointsByTs (l : List TimeSeriesPoint) : List TimeSeriesPoint :=
  l.foldr insertPointByTs []

/-- convertToRegularTimeSeries: hourly bucket counts, sorted by bucket
timestamp. -/
def convertToRegularTimeSeries (alerts : List Alert) : List TimeSeriesPoint :=
  let keys := dedupFirst (alerts.map (fun a => hourBucket a.timestamp))
  sortPointsByTs (keys.map (fun k =>
    { timestamp := k
      value := ((alerts.filter (fun a => hourBucket a.timestamp = k)).length : ℚ) }))

/-- detectSeasonality at a given period: positional bucket sums over
whole segments, normalized, then a coefficient-of-variation test. The
source compares sqrt(variance)/mean against 0.2; the squared comparison
below is equivalent for the nonnegative variance and mean arising here. -/
def detectSeasonality (data : List TimeSeriesPoint) (period : ℕ) : Bool :=
  if data.length < period * 2 then false
  else
    let segments := data.length / period
    let vals := data.map (fun p => p.value)
    let patterns := (List.range period).map (fun j =>
      (((List.range (segments * period)).filter (fun i => i % period = j)).map
        (fun i => vals.getD i 0)).sum)
    let normalized := patterns.map (fun v => v / (segments : ℚ))
    let mean := normalized.sum / (period : ℚ)
    let variance := (normalized.map (fun v => (v - mean) ^ 2)).sum / (period : ℚ)
    decide ((1/25 : ℚ) * mean ^ 2 < variance)

/-- decomposeTimeSeries: daily/weekly/monthly seasonality flags over the
regularized hourly series. -/
def decomposeTimeSeries (alerts : List Alert) : Seasonality :=
  let data := convertToRegularTimeSeries alerts
  { daily := detectSeasonality data 24
    weekly := detectSeasonality data (24 * 7)
    monthly := detectSeasonality data (24 * 30) }

/-- Stable ascending insertion into a sorted rational list. -/
def insertQ (x : ℚ) : List ℚ → List ℚ
  | [] => [x]
  | b :: l => if b ≤ x then b :: insertQ x l else x :: b :: l

/-- Ascending sort of a rational list. -/
def sortQ (l : List ℚ) : List ℚ := l.foldr insertQ []

/-- calculateBaselineValue: median of the values of the last 24 alerts. -/
def calculateBaselineValue (alerts : List Alert) : ℚ :=
  let recent := alerts.drop (alerts.length - 24)
  let values := sortQ (recent.map (fun a => a.value))
  let mid := values.length / 2
  if values.length % 2 = 0 then (values.getD (mid - 1) 0 + values.getD mid 0) / 2
  else values.getD mid 0

/-- calculateSeasonalFactor: 1.2 during business hours, 0.8 at night,
else 1 (the hour extracted from the forecast timestamp). -/
def calculateSeasonalFactor (hour : ℤ) : ℚ :=
  if hour ∈ [9, 10, 11, 12, 13, 14, 15, 16, 17] then 12/10
  else if 1 ≤ hour ∧ hour ≤ 5 then 8/10
  else 1

/-- generateForecasts: 24 hourly points past the last alert's timestamp.
The source reads `alerts[alerts.length - 1].timestamp` unconditionally;
in this total embedding the out-of-bounds read on an empty list is the
none branch. -/
def generateForecasts (alerts : List Alert) (trend : String)
    (seasonality : Seasonality) : Option (List TimeSeriesPoint) :=
  match alerts.getLast? with
  | none => none
  | some lastAlert =>
    some ((List.range 24).map (fun i0 =>
      let i : ℤ := (i0 : ℤ) + 1
      let timestamp := lastAlert.timestamp + i * 3600000
      let base := calculateBaselineValue alerts
      let v1 := if trend = "increasing" then base * (11/10)
        else if trend = "decreasing" then base * (9/10) else base
      let v2 := if seasonality.daily then
          v1 * calculateSeasonalFactor (Int.emod (Int.fdiv timestamp 3600000) 24)
        else v1
      { timestamp := timestamp, value := v2 }))

/-- Result shape of analyzeTimeSeries. -/
structure TimeSeriesAnalysis where
  trend : String
  seasonality : Seasonality
  forecasts : List TimeSeriesPoint
deriving DecidableEq, Repr

/-- analyzeTimeSeries: sort, compute trend and seasonality, generate
forecasts; none is the rethrown-error branch of the source's catch. -/
def analyzeTimeSeries (alerts : List Alert) : Option TimeSeriesAnalysis :=
  let sorted := sortByTimestamp alerts
  let trend := calculateTrend sorted
  let seasonality := decomposeTimeSeries sorted
  (generateForecasts sorted trend seasonality).map (fun f =>
    { trend := trend, seasonality := seasonality, forecasts := f })

/-- The time-series part of getAnalyticsDashboard: the alert history is
windowed to [now − timeframe, now] and handed to analyzeTimeSeries;
none means the handler's 500-error branch. -/
def dashboardTimeSeries (history : List Alert) (now timeframeMs : ℤ) :
    Option TimeSeriesAnalysis :=
  analyzeTimeSeries (getAlertHistory history
    { typeFilter := none
      severityFilter := none
      fromFilter := some (now - timeframeMs)
      toFilter := some now })

/-! ## Invariant predicates and helper lemmas -/

/-- Per-pattern form of the registry invariant: a prediction is present
exactly when occurrences reached MIN_PATTERN_OCCURRENCES, and its
confidence equals the updatePattern confidence formula. -/
def PatternLocalInv (p : AlertPattern) : Prop :=
  (p.prediction.isSome ↔ MIN_PATTERN_OCCURRENCES ≤ p.occurrences) ∧
  (∀ pr, p.prediction = some pr → pr.confidence = predConfidence p.occurrences)

/-- Registry-wide prediction invariant. -/
def PredInvariant (r : Registry) : Prop := ∀ p ∈ r, PatternLocalInv p

theorem mergePattern_localInv (ex np : AlertPattern) (hex : PatternLocalInv ex) :
    PatternLocalInv (mergePattern ex np) := by
  obtain ⟨hiff, hconf⟩ := hex
  rw [mergePattern]
  by_cases hocc : MIN_PATTERN_OCCURRENCES ≤ ex.occurrences + 1
  · rw [if_pos hocc]
    constructor
    · simp [hocc]
    · intro pr hpr
      simp only [Option.some.injEq] at hpr
      rw [← hpr]
  · rw [if_neg hocc]
    have hnone : ex.prediction = none := by
      cases hex0 : ex.prediction with
      | none => rfl
      | some pr =>
        exfalso
        have h3 : MIN_PATTERN_OCCURRENCES ≤ ex.occurrences := by
          apply hiff.mp
          rw [hex0]
          rfl
        simp only [MIN_PATTERN_OCCURRENCES] at h3 hocc
        omega
    constructor
    · simp only [hnone]
      simp only [Option.isSome_none, Bool.false_eq_true, false_iff]
      exact hocc
    · intro pr hpr
      simp only [hnone] at hpr
      cases hpr

theorem createPattern_localInv (g : List Alert) : PatternLocalInv (createPattern g) := by
  constructor
  · simp [createPattern, MIN_PATTERN_OCCURRENCES]
  · intro pr hpr
    simp [createPattern] at hpr

theorem updatePattern_inv (r : Registry) (np : AlertPattern) (hr : PredInvariant r)
    (hnp : PatternLocalInv np) : PredInvariant (updatePattern r np) := by
  rw [updatePattern]
  cases hfind : r.find? (fun p => p.id = np.id) with
  | some q =>
    intro p hp
    obtain ⟨q2, hq2, hfq⟩ := List.mem_map.mp hp
    by_cases hid : q2.id = np.id
    · rw [if_pos hid] at hfq
      rw [← hfq]
      exact mergePattern_localInv q2 np (hr q2 hq2)
    · rw [if_neg hid] at hfq
      rw [← hfq]
      exact hr q2 hq2
  | none =>
    intro p hp
    rcases List.mem_append.mp hp with h | h
    · exact hr p h
    · rw [List.mem_singleton.mp h]
      exact hnp

theorem foldl_inv {α β : Type} (P : β → Prop) (f : β → α → β)
    (hf : ∀ b a, P b → P (f b a)) : ∀ (l : List α) (b : β), P b → P (l.foldl f b) := by
  intro l
  induction l with
  | nil => intro b hb; exact hb
  | cons a l ih => intro b hb; exact ih (f b a) (hf b a hb)

/-- Number of dash characters in a string, used to separate the two
pattern-id formats. -/
def countDash (s : String) : ℕ := s.data.count '-'

/-! ## Concrete fixtures used by counterexamples and witnesses -/

/-- A first alert 60 seconds before the second, for the double-count run. -/
def c1Alert1 : Alert := ⟨"cpu", 0, 0, 0, Severity.warning, ""⟩

/-- A second alert inside the 5-minute cluster window of the first. -/
def c1Alert2 : Alert := ⟨"mem", 0, 0, 60000, Severity.warning, ""⟩

/-- An archived batch already marked processed. -/
def c1Batch : AlertBatch := ⟨"batch-1", [c1Alert1, c1Alert2], [], 0, true⟩

/-- A registry entry with two occurrences and no prediction yet,
last seen at t = 1000. -/
def c2Existing : AlertPattern :=
  { id := "pattern-cpu-0", pattern := ⟨["cpu"], 0, Severity.warning, 1⟩,
    occurrences := 2, lastSeen := 1000, prediction := none }

/-- The incoming candidate for the merge, last seen at t = 2000. -/
def c2Incoming : AlertPattern :=
  { id := "pattern-cpu-0", pattern := ⟨["cpu"], 0, Severity.warning, 1⟩,
    occurrences := 1, lastSeen := 2000, prediction := none }

/-- A registry entry that already carries a prediction. -/
def c2ExistingPred : AlertPattern :=
  { id := "pattern-cpu-0", pattern := ⟨["cpu"], 0, Severity.warning, 1⟩,
    occurrences := 3, lastSeen := 1000, prediction := some ⟨1500, 4/5⟩ }

/-- A critical alert at t = 0. -/
def c3Critical : Alert := ⟨"cpu", 1, 1, 0, Severity.critical, ""⟩

/-- A warning alert of the same type 30 seconds later. -/
def c3Warning : Alert := ⟨"cpu", 1, 1, 30000, Severity.warning, ""⟩

/-- An accuracy record predicted at t = 0. -/
def c5Metric : PredictionAccuracyMetric :=
  { patternId := "pattern-cpu", predictedTime := 0, actualTime := none,
    confidence := 4/5, accuracy := none, verified := false }

/-- A candidate alert far outside the ±30-minute window of c5Metric. -/
def c5FarAlert : Alert := ⟨"cpu", 0, 0, 2000000, Severity.warning, ""⟩

/-- Two same-type alerts 61 seconds apart. -/
def c7a : Alert := ⟨"cpu", 0, 0, 0, Severity.warning, ""⟩

/-- Second alert of the 61-second pair. -/
def c7b : Alert := ⟨"cpu", 0, 0, 61000, Severity.warning, ""⟩

/-- Two same-type alerts 59 seconds apart. -/
def c7c : Alert := ⟨"cpu", 0, 0, 0, Severity.warning, ""⟩

/-- Second alert of the 59-second pair. -/
def c7d : Alert := ⟨"cpu", 0, 0, 59000, Severity.warning, ""⟩

/-- An accuracy record whose pattern id is a miner-created id. -/
def c8Metric : PredictionAccuracyMetric :=
  { patternId := minerPatternId ["cpu"] 60000, predictedTime := 0, actualTime := none,
    confidence := 4/5, accuracy := none, verified := false }

/-! ## Claim theorems -/

/-- Claim C1 (code evaluated at the failing input): the archive-analysis
cycle double-counts an already-processed batch. The batch c1Batch is
marked processed, a first run over the archive containing it produces a
registry whose single pattern has occurrences 1, and running the same
cycle again over the same archive raises that pattern's occurrences to
2 — the miner applies no filter on the processed flag, so re-mining the
same archived batch does double-count occurrences, contrary to the
claim. -/
theorem c1_remining_processed_batch_double_counts :
    c1Batch.processed = true ∧
    ((analyzeArchivedBatches [] [c1Batch] 0).map (fun p => p.occurrences) = [1]) ∧
    ((analyzeArchivedBatches (analyzeArchivedBatches [] [c1Batch] 0) [c1Batch] 0).map
      (fun p => p.occurrences) = [2]) :=
  ⟨rfl, rfl, rfl⟩

/-- Claim C2, counterexample: at the merge that first reaches three
occurrences (previous lastSeen 1000, new lastSeen 2000), the recomputed
nextExpected is exactly the new lastSeen (2000), not lastSeen plus an
average inter-occurrence interval derived from the lastSeen delta of
1000 (which is 500 per gap, or 1000 as a whole — both nonzero). -/
theorem c2_counterexample :
    c2Existing.lastSeen = 1000 ∧ c2Incoming.lastSeen = 2000 ∧
    3 ≤ c2Existing.occurrences + 1 ∧
    (mergePattern c2Existing c2Incoming).prediction = some ⟨2000, 4/5⟩ ∧
    (2000 : ℚ) ≠ 2000 + ((2000 : ℚ) - 1000) / 2 ∧
    (2000 : ℚ) ≠ 2000 + ((2000 : ℚ) - 1000) := by
  refine ⟨rfl, rfl, by decide, ?_, by norm_num, by norm_num⟩
  rw [mergePattern]
  norm_num [c2Existing, c2Incoming, MIN_PATTERN_OCCURRENCES, predConfidence]

/-- Claim C2, amended: for every merge whose occurrence count reaches at
least 3, the recomputed nextExpected is the new lastSeen plus
(new lastSeen − previous prediction.nextExpected)/(occurrences − 1) when
a previous prediction exists, and exactly the new lastSeen when the
prediction is first created (so the first prediction falls on the last
alert itself, not ~90 minutes after it). -/
theorem c2_amended (ex np : AlertPattern)
    (h3 : MIN_PATTERN_OCCURRENCES ≤ ex.occurrences + 1) :
    (ex.prediction = none →
      (mergePattern ex np).prediction =
        some ⟨(np.lastSeen : ℚ), predConfidence (ex.occurrences + 1)⟩) ∧
    (∀ pr, ex.prediction = some pr →
      (mergePattern ex np).prediction =
        some ⟨(np.lastSeen : ℚ) +
          ((np.lastSeen : ℚ) - pr.nextExpected) / (ex.occurrences : ℚ),
          predConfidence (ex.occurrences + 1)⟩) := by
  constructor
  · intro hnone
    rw [mergePattern, if_pos h3, hnone]
    simp
  · intro pr hpr
    rw [mergePattern, if_pos h3, hpr]
    simp only [Option.some.injEq, Prediction.mk.injEq]
    constructor
    · congr 1
      congr 1
      push_cast
      ring
    · trivial

/-- Claim C2, witness: both branches of the amended statement evaluated
at the concrete merges of the fixtures. -/
theorem c2_witness :
    (mergePattern c2Existing c2Incoming).prediction =
      some ⟨(c2Incoming.lastSeen : ℚ), predConfidence (c2Existing.occurrences + 1)⟩ ∧
    (mergePattern c2ExistingPred c2Incoming).prediction =
      some ⟨(c2Incoming.lastSeen : ℚ) +
        ((c2Incoming.lastSeen : ℚ) - (1500 : ℚ)) / (c2ExistingPred.occurrences : ℚ),
        predConfidence (c2ExistingPred.occurrences + 1)⟩ :=
  ⟨(c2_amended c2Existing c2Incoming (by decide)).1 rfl,
   (c2_amended c2ExistingPred c2Incoming (by decide)).2 ⟨1500, 4/5⟩ rfl⟩

/-- Claim C3, counterexample: for the concrete batch of two same-type
alerts 30 seconds apart with severities critical and warning, both
correlation confidences are 22501/75000 ≈ 0.30001, which is not greater
than 0.5 — the severity factor is 0 because the severities differ, and
the time factor is only 0.4/30000. -/
theorem c3_counterexample :
    (findCorrelations [c3Critical, c3Warning]).map (fun c => c.confidence) =
      [22501/75000, 22501/75000] ∧ ¬ ((1 : ℚ)/2 < 22501/75000) := by
  constructor
  · simp only [findCorrelations, relatedTo, calculateCorrelationConfidence,
      c3Critical, c3Warning, List.enum, List.enumFrom, List.filter,
      List.filterMap, List.map,
      show (decide (Severity.warning = Severity.critical)) = false from rfl,
      show (decide (Severity.critical = Severity.warning)) = false from rfl]
    norm_num
  · norm_num

/-- Claim C3, amended: for every batch of two alerts 30 seconds apart
that share a type but split severities (one critical, one warning), the
correlation confidence of each is exactly 22501/75000, strictly greater
than 0.3 but strictly below 0.5 (only the type factor contributes
materially; the severity factor is zero and the time-proximity factor is
1/75000). -/
theorem c3_amended (a b : Alert) (htype : a.type = b.type)
    (hsa : a.severity = Severity.critical) (hsb : b.severity = Severity.warning)
    (hd : (a.timestamp - b.timestamp).natAbs = 30000) :
    (findCorrelations [a, b]).map (fun c => c.confidence) =
      [22501/75000, 22501/75000] ∧
    (3 : ℚ)/10 < 22501/75000 ∧ (22501 : ℚ)/75000 < 1/2 := by
  have hd2 : (b.timestamp - a.timestamp).natAbs = 30000 := by omega
  refine ⟨?_, by norm_num, by norm_num⟩
  simp only [findCorrelations, relatedTo, calculateCorrelationConfidence,
    List.enum, List.enumFrom, List.filter, List.filterMap, List.map,
    htype, hsa, hsb, hd, hd2,
    show (decide (Severity.warning = Severity.critical)) = false from rfl,
    show (decide (Severity.critical = Severity.warning)) = false from rfl]
  norm_num

/-- Claim C3, witness: the amended statement applied to the concrete
critical/warning pair 30 seconds apart. -/
theorem c3_witness :
    (findCorrelations [c3Critical, c3Warning]).map (fun c => c.confidence) =
      [22501/75000, 22501/75000] ∧
    (3 : ℚ)/10 < 22501/75000 ∧ (22501 : ℚ)/75000 < 1/2 :=
  c3_amended c3Critical c3Warning rfl rfl rfl (by decide)

/-- Claim C4: every archive-analysis step preserves the registry
invariant that a pattern carries a prediction exactly when its
occurrences reached 3, with confidence equal to
min(0.5 + 0.1 × occurrences, 0.9); a freshly created pattern has
occurrences 1 and no prediction; and the confidence formula is monotone
in occurrences and capped at 0.9. -/
theorem c4_prediction_invariant (r : Registry) (batches : List AlertBatch) (now : ℤ)
    (hr : PredInvariant r) :
    PredInvariant (analyzeArchivedBatches r batches now) ∧
    (∀ g, (createPattern g).occurrences = 1 ∧ (createPattern g).prediction = none) ∧
    (∀ m n : ℕ, m ≤ n → predConfidence m ≤ predConfidence n) ∧
    (∀ n : ℕ, predConfidence n ≤ 9/10) := by
  refine ⟨?_, fun g => ⟨rfl, rfl⟩, ?_, ?_⟩
  · rw [analyzeArchivedBatches, detectPatterns]
    have hfold : PredInvariant (batches.foldl (fun acc batch =>
        (groupAlertsByTimeWindow batch.alerts).foldl (fun acc2 group =>
          if 2 ≤ group.length then updatePattern acc2 (createPattern group) else acc2)
          acc) r) := by
      refine foldl_inv PredInvariant _ ?_ batches r hr
      intro b batch hb
      refine foldl_inv PredInvariant _ ?_ _ b hb
      intro b2 group hb2
      by_cases hg : 2 ≤ group.length
      · rw [if_pos hg]
        exact updatePattern_inv b2 (createPattern group) hb2 (createPattern_localInv group)
      · rw [if_neg hg]
        exact hb2
    intro p hp
    exact hfold p (List.mem_filter.mp hp).1
  · intro m n hmn
    rw [predConfidence, predConfidence]
    have hc : (m : ℚ) ≤ (n : ℚ) := by exact_mod_cast hmn
    apply min_le_min _ le_rfl
    nlinarith
  · intro n
    rw [predConfidence]
    exact min_le_right _ _

/-- Claim C4, witness: the invariant holds for the registry produced
from the empty registry by mining the concrete processed batch. -/
theorem c4_witness : PredInvariant (analyzeArchivedBatches [] [c1Batch] 0) :=
  (c4_prediction_invariant [] [c1Batch] 0 (by simp [PredInvariant])).1

/-- Claim C5: verification accuracy is exactly 1 within five minutes of
the predicted time, exactly 0 at the 30-minute tolerance edge, linear
in between, and a record is left unchanged (hence unverified) by
verifyPrediction whenever no candidate alert falls inside the
±30-minute window of its predicted time. -/
theorem c5_accuracy_postcondition (p t : ℤ) (pid : String)
    (m : PredictionAccuracyMetric) (alerts : List Alert) :
    ((p - t).natAbs ≤ 300000 → calculateAccuracy p t = 1) ∧
    ((p - t).natAbs = 1800000 → calculateAccuracy p t = 0) ∧
    (300000 < (p - t).natAbs → (p - t).natAbs ≤ 1800000 →
      calculateAccuracy p t = 1 - (((p - t).natAbs : ℚ) - 300000) / 1500000) ∧
    ((∀ x ∈ alerts, x.timestamp < m.predictedTime - TIME_TOLERANCE ∨
        m.predictedTime + TIME_TOLERANCE < x.timestamp) →
      verifyOne pid alerts m = m) := by
  refine ⟨?_, ?_, ?_, ?_⟩
  · intro hd
    rw [calculateAccuracy]
    rw [if_pos (by exact_mod_cast hd)]
  · intro hd
    rw [calculateAccuracy, hd]
    norm_num [TIME_TOLERANCE]
  · intro h1 h2
    have hq : ((p - t).natAbs : ℚ) ≤ 1800000 := by exact_mod_cast h2
    rw [calculateAccuracy, if_neg (by omega), TIME_TOLERANCE]
    push_cast [Int.cast_natAbs] at hq ⊢
    rw [max_eq_right]
    · norm_num
    · rw [sub_nonneg, div_le_one (by norm_num)]
      linarith
  · intro hout
    have hfw : findRelevantAlert m.predictedTime alerts = none := by
      rw [findRelevantAlert]
      have hfil : alerts.filter (fun a =>
          m.predictedTime - TIME_TOLERANCE ≤ a.timestamp ∧
          a.timestamp ≤ m.predictedTime + TIME_TOLERANCE) = [] := by
        rw [List.filter_eq_nil_iff]
        intro x hx
        have hc := hout x hx
        simp only [decide_eq_true_eq, not_and, not_le]
        omega
      rw [hfil]
      rfl
    rw [verifyOne, hfw]
    split <;> rfl

/-- Claim C5, witness: the four conclusions evaluated at concrete
predicted/actual times and at a candidate set lying outside the
verification window. -/
theorem c5_witness :
    calculateAccuracy 0 200000 = 1 ∧
    calculateAccuracy 0 1800000 = 0 ∧
    calculateAccuracy 0 1050000 = 1 - ((((0 : ℤ) - 1050000).natAbs : ℚ) - 300000) / 1500000 ∧
    verifyOne "pattern-cpu" [c5FarAlert] c5Metric = c5Metric :=
  ⟨(c5_accuracy_postcondition 0 200000 "pattern-cpu" c5Metric []).1 (by decide),
   (c5_accuracy_postcondition 0 1800000 "pattern-cpu" c5Metric []).2.1 (by decide),
   (c5_accuracy_postcondition 0 1050000 "pattern-cpu" c5Metric []).2.2.1
     (by decide) (by decide),
   (c5_accuracy_postcondition 0 0 "pattern-cpu" c5Metric [c5FarAlert]).2.2.2
     (by decide)⟩

/-- Claim C6: for every sequence of recorded alerts, the history length
after each call is min(count, 1000) — never above the 1000-entry cap —
and the history is a suffix of the full stamped arrival sequence, so
eviction always removes the oldest entries first and the survivors keep
their insertion order. -/
theorem c6_history_cap_fifo (pairs : List (Alert × ℤ)) :
    (recordAll pairs).length = min pairs.length MAX_HISTORY ∧
    recordAll pairs <:+ pairs.map (fun p => stampAlert p.1 p.2) := by
  induction pairs using List.reverseRecOn with
  | nil => simp [recordAll, MAX_HISTORY]
  | append_singleton ps p ih =>
    obtain ⟨ihlen, t, iht⟩ := ih
    have hstep : recordAll (ps ++ [p]) = notifyRecord (recordAll ps) p.1 p.2 := by
      simp [recordAll, List.foldl_append]
    have hsuf : (recordAll ps ++ [stampAlert p.1 p.2]) <:+
        (ps ++ [p]).map (fun q => stampAlert q.1 q.2) := by
      refine ⟨t, ?_⟩
      simp [← iht]
    rw [hstep, notifyRecord]
    by_cases hlen : MAX_HISTORY < (recordAll ps ++ [stampAlert p.1 p.2]).length
    · rw [if_pos hlen]
      constructor
      · simp only [List.length_drop, List.length_append, List.length_singleton] at *
        unfold MAX_HISTORY at *
        omega
      · exact (List.drop_suffix _ _).trans hsuf
    · rw [if_neg hlen]
      constructor
      · simp only [List.length_append, List.length_singleton, List.length_map] at *
        unfold MAX_HISTORY at *
        omega
      · exact hsuf

/-- Claim C7: in a two-alert batch of the same type, timestamps 61
seconds apart yield no correlation at all, while 59 seconds apart yield
exactly one correlation for each alert — membership is decided by the
±60-second window. -/
theorem c7_correlation_window (a b : Alert) (_htype : a.type = b.type) :
    ((a.timestamp - b.timestamp).natAbs = 61000 → findCorrelations [a, b] = []) ∧
    ((a.timestamp - b.timestamp).natAbs = 59000 →
      (findCorrelations [a, b]).map (fun c => c.primaryAlert) = [a, b]) := by
  constructor
  · intro hd
    have hd2 : (b.timestamp - a.timestamp).natAbs = 61000 := by omega
    simp [findCorrelations, relatedTo, List.enum, List.enumFrom, List.filter,
      List.filterMap, List.map, hd, hd2]
  · intro hd
    have hd2 : (b.timestamp - a.timestamp).natAbs = 59000 := by omega
    simp [findCorrelations, relatedTo, List.enum, List.enumFrom, List.filter,
      List.filterMap, List.map, hd, hd2]

/-- Claim C7, witness: both windows evaluated at concrete same-type
pairs 61 and 59 seconds apart. -/
theorem c7_witness :
    findCorrelations [c7a, c7b] = [] ∧
    (findCorrelations [c7c, c7d]).map (fun c => c.primaryAlert) = [c7c, c7d] :=
  ⟨(c7_correlation_window c7a c7b rfl).1 (by decide),
   (c7_correlation_window c7c c7d rfl).2 (by decide)⟩

/-- Claim C8: for every alert type containing no dash, the id
`pattern-{type}` used by the record path for verification differs from
every miner-created id `pattern-{joined types}-{timeWindow}` (the former
contains exactly one dash, the latter at least two), so an accuracy
record created by the scheduler under a miner id is never touched by the
record-path verification for such an alert. -/
theorem c8_pattern_id_mismatch (t : String) (types : List String) (tw : ℤ)
    (m : PredictionAccuracyMetric) (alerts : List Alert)
    (hnd : countDash t = 0) :
    verificationId t ≠ minerPatternId types tw ∧
    (m.patternId = minerPatternId types tw → verifyOne (verificationId t) alerts m = m) := by
  have hv : countDash (verificationId t) = 1 := by
    rw [verificationId, countDash, String.data_append, List.count_append]
    rw [countDash] at hnd
    rw [hnd]
    rfl
  have hm2 : 2 ≤ countDash (minerPatternId types tw) := by
    rw [minerPatternId, countDash, String.data_append, String.data_append,
      String.data_append, List.count_append, List.count_append, List.count_append]
    have h1 : List.count '-' "pattern-".data = 1 := by rfl
    have h2 : List.count '-' "-".data = 1 := by rfl
    rw [h1, h2]
    omega
  have hne : verificationId t ≠ minerPatternId types tw := by
    intro heq
    rw [heq] at hv
    omega
  refine ⟨hne, ?_⟩
  intro hm
  rw [verifyOne, if_neg]
  intro hc
  exact hne (by rw [← hc.1, hm])

/-- Claim C8, witness: the id mismatch and the untouched record at the
concrete type "cpu" and the miner id of its 60000 ms pattern. -/
theorem c8_witness :
    verificationId "cpu" ≠ minerPatternId ["cpu"] 60000 ∧
    verifyOne (verificationId "cpu") [] c8Metric = c8Metric :=
  ⟨(c8_pattern_id_mismatch "cpu" ["cpu"] 60000 c8Metric [] (by decide)).1,
   (c8_pattern_id_mismatch "cpu" ["cpu"] 60000 c8Metric [] (by decide)).2 rfl⟩

/-- Claim C9: the entry appended by a record call is the alert with its
timestamp replaced by the arrival time and every other field preserved,
it is the last history entry, and the from/to filters of getAlertHistory
admit it exactly when the arrival time lies in the queried range —
independent of the alert's original timestamp. -/
theorem c9_arrival_timestamp (h : List Alert) (a : Alert) (now f t : ℤ) :
    (∃ pre, notifyRecord h a now = pre ++ [stampAlert a now]) ∧
    (stampAlert a now).type = a.type ∧ (stampAlert a now).value = a.value ∧
    (stampAlert a now).threshold = a.threshold ∧
    (stampAlert a now).severity = a.severity ∧
    (stampAlert a now).message = a.message ∧ (stampAlert a now).timestamp = now ∧
    ((stampAlert a now) ∈ getAlertHistory (notifyRecord h a now)
        ⟨none, none, some f, some t⟩ ↔ (f ≤ now ∧ now ≤ t)) := by
  have hpre : ∃ pre, notifyRecord h a now = pre ++ [stampAlert a now] := by
    rw [notifyRecord]
    by_cases hlen : MAX_HISTORY < (h ++ [stampAlert a now]).length
    · rw [if_pos hlen]
      refine ⟨h.drop ((h ++ [stampAlert a now]).length - MAX_HISTORY), ?_⟩
      rw [List.drop_append_eq_append_drop]
      congr 1
      have hk : (h ++ [stampAlert a now]).length - MAX_HISTORY - h.length = 0 := by
        simp only [List.length_append, List.length_singleton] at *
        unfold MAX_HISTORY at *
        omega
      rw [hk]
      rfl
    · rw [if_neg hlen]
      exact ⟨h, rfl⟩
  refine ⟨hpre, rfl, rfl, rfl, rfl, rfl, rfl, ?_⟩
  constructor
  · intro hmem
    simp only [getAlertHistory, List.mem_filter, decide_eq_true_eq] at hmem
    exact ⟨hmem.1.2, hmem.2⟩
  · intro hft
    obtain ⟨pre, hp⟩ := hpre
    simp only [getAlertHistory, List.mem_filter, decide_eq_true_eq, hp]
    refine ⟨⟨?_, hft.1⟩, hft.2⟩
    simp

/-- Claim C10: the forecast generation reads the last element of the
alert list, so the total embedding returns none on empty input — the
error branch of analyzeTimeSeries is reachable for the empty alert
list, and the dashboard path reaches it with an empty history for every
time window. -/
theorem c10_empty_input_error_branch (now timeframeMs : ℤ) :
    analyzeTimeSeries ([] : List Alert) = none ∧
    generateForecasts [] "stable" ⟨false, false, false⟩ = none ∧
    dashboardTimeSeries [] now timeframeMs = none :=
  ⟨rfl, rfl, rfl⟩

end CircleSfera
